import Mathlib

/-!
Shallow embedding of `sim/src/make/spawner.rs` from the abstreet repository:
the trip-instantiation core (`TripSpec`, `TripSpawner::schedule_trip`,
`TripSpawner::finalize`, `TripSpec::get_pathfinding_request`).

Identifier types from `map_model` (`BuildingID`, `LaneID`, `IntersectionID`,
`BusRouteID`, `BusStopID`, `PersonID`, `Time`, `TripEndpoint`, `TripPurpose`)
are abstract and modelled as `Nat`.  Distances (`geom::Distance`) are
modelled as `Nat`; the only operations the code performs on them are
comparison, which `Nat` supports.  The external map (`map_model::Map`) is
modelled as a record of the query functions the code calls on it.  A Rust
`panic!` / `todo!` / `.unwrap()`-on-`None` is modelled as the `Except.error`
case, carrying a structured value that records which panic site fired and
with which interpolated data.
-/

namespace Spawner

/-- `map_model::Position`: a lane plus a distance along that lane. -/
structure Position where
  lane : Nat
  dist_along : Nat
deriving DecidableEq, Repr

/-- `sim::VehicleType` (only the variants the spawner distinguishes matter:
the code tests `use_vehicle.1 == VehicleType::Bike`). -/
inductive VehicleType
  | Car
  | Bike
  | Bus
deriving DecidableEq, Repr

/-- `sim::CarID`: a numeric id tagged with its vehicle type (`CarID.1` in
Rust is the vehicle type). -/
structure CarID where
  idx : Nat
  vehicle_type : VehicleType
deriving DecidableEq, Repr

/-- `sim::SidewalkSpot`: a pedestrian anchor; `connection` abstracts the
`SidewalkPOI`, `sidewalk_pos` is the position used for lane comparisons. -/
structure SidewalkSpot where
  connection : Nat
  sidewalk_pos : Position
deriving DecidableEq, Repr

/-- `sim::DrivingGoal`: park near a building, or exit the map at a border
intersection through a given lane. -/
inductive DrivingGoal
  | ParkNear (b : Nat)
  | Border (i : Nat) (end_lane : Nat)
deriving DecidableEq, Repr

/-- `map_model::PathConstraints` (the modes the spawner uses). -/
inductive PathConstraints
  | Car
  | Bike
  | Pedestrian
deriving DecidableEq, Repr

/-- `sim::TripSpec` from `spawner.rs`, all six variants with their fields. -/
inductive TripSpec
  | VehicleAppearing (start_pos : Position) (goal : DrivingGoal)
      (use_vehicle : CarID) (retry_if_no_room : Bool)
  | SpawningFailure (use_vehicle : Option CarID) (error : String)
  | UsingParkedCar (car : CarID) (start_bldg : Nat) (goal : DrivingGoal)
  | JustWalking (start : SidewalkSpot) (goal : SidewalkSpot)
  | UsingBike (bike : CarID) (start : Nat) (goal : DrivingGoal)
  | UsingTransit (start : SidewalkSpot) (goal : SidewalkSpot)
      (route : Nat) (stop1 : Nat) (maybe_stop2 : Option Nat)
deriving DecidableEq, Repr

/-- The external `map_model::Map`, abstracted to exactly the queries
`spawner.rs` performs on it:
`laneLength l` is `map.get_l(l).length()`;
`goal_pos g c` is `DrivingGoal::goal_pos(c, map)`;
`building_spot b` is `SidewalkSpot::building(b, map)`;
`bike_rack b` is `SidewalkSpot::bike_rack(b, map)`;
`end_at_border i` is `SidewalkSpot::end_at_border(i, map)`;
`bus_stop s` is `SidewalkSpot::bus_stop(s, map)`;
`get_b_sidewalk_pos b` is `map.get_b(b).sidewalk_pos`. -/
structure MapView where
  laneLength : Nat → Nat
  goal_pos : DrivingGoal → PathConstraints → Option Position
  building_spot : Nat → SidewalkSpot
  bike_rack : Nat → Option SidewalkSpot
  end_at_border : Nat → Option SidewalkSpot
  bus_stop : Nat → SidewalkSpot
  get_b_sidewalk_pos : Nat → Position

/-- Each Rust panic / `todo!` / `.unwrap()` site in `spawner.rs`, with the
data its message interpolates. -/
inductive SpawnError
  | spawnTooFar (start_pos : Position)
  | borderEdge (start_pos : Position)
  | degenerateWalk (start goal : SidewalkSpot)
  | backupPlanUnwrap
  | spawningFailureTodo
  | personNotFound (p : Nat)
  | bikeRackUnwrap
  | goalPosUnwrap
deriving DecidableEq, Repr

/-- The `error` string of the `SpawningFailure` built when
`goal_pos` returns `None` for a `VehicleAppearing` spec:
`format!("goal_pos to {:?} for a {:?} failed", goal, constraints)`. -/
def goalPosFailMsg (goal : DrivingGoal) (constraints : PathConstraints) : String :=
  "goal_pos to " ++ reprStr goal ++ " for a " ++ reprStr constraints ++ " failed"

/-- The `error` string of the `SpawningFailure` built when a `UsingBike`
spec has no rack at its start and no walking backup:
`format!("Can't start biking from {} and can't walk either! Goal is {:?}", start, goal)`. -/
def bikeStuckMsg (start : Nat) (goal : DrivingGoal) : String :=
  "Can\x27t start biking from " ++ toString start ++
    " and can\x27t walk either! Goal is " ++ reprStr goal

/-- The condition of the second panic in the `VehicleAppearing` arm of
`schedule_trip`: the goal is a border exit whose lane is the start lane and
the start offset sits exactly at that lane's end. -/
def borderEdgeCond (map : MapView) (start_pos : Position)
    (goal : DrivingGoal) : Bool :=
  match goal with
  | DrivingGoal.Border _ end_lane =>
    start_pos.lane == end_lane &&
      start_pos.dist_along == map.laneLength end_lane
  | DrivingGoal.ParkNear _ => false

/-- The validation performed on `spec` by `TripSpawner::schedule_trip`
(`spawner.rs` lines 89-180): per-variant checks that either panic
(`Except.error`), rewrite the spec to a fallback or failure variant, or
pass it through unchanged. -/
def validate_spec (map : MapView) : TripSpec → Except SpawnError TripSpec
  | TripSpec.VehicleAppearing start_pos goal use_vehicle retry_if_no_room =>
    if map.laneLength start_pos.lane ≤ start_pos.dist_along then
      Except.error (SpawnError.spawnTooFar start_pos)
    else if borderEdgeCond map start_pos goal then
      Except.error (SpawnError.borderEdge start_pos)
    else
      let constraints :=
        if use_vehicle.vehicle_type == VehicleType.Bike then
          PathConstraints.Bike
        else
          PathConstraints.Car
      if (map.goal_pos goal constraints).isNone then
        Except.ok (TripSpec.SpawningFailure (some use_vehicle)
          (goalPosFailMsg goal constraints))
      else
        Except.ok (TripSpec.VehicleAppearing start_pos goal use_vehicle
          retry_if_no_room)
  | TripSpec.SpawningFailure use_vehicle error =>
    Except.ok (TripSpec.SpawningFailure use_vehicle error)
  | TripSpec.UsingParkedCar car start_bldg goal =>
    Except.ok (TripSpec.UsingParkedCar car start_bldg goal)
  | TripSpec.JustWalking start goal =>
    if start = goal then
      Except.error (SpawnError.degenerateWalk start goal)
    else
      Except.ok (TripSpec.JustWalking start goal)
  | TripSpec.UsingBike bike start goal =>
    let backup_plan : Option TripSpec :=
      match goal with
      | DrivingGoal.ParkNear b =>
        some (TripSpec.JustWalking (map.building_spot start)
          (map.building_spot b))
      | DrivingGoal.Border i _ =>
        (map.end_at_border i).map (fun g =>
          TripSpec.JustWalking (map.building_spot start) g)
    match map.bike_rack start with
    | some start_spot =>
      match goal with
      | DrivingGoal.ParkNear b =>
        match map.bike_rack b with
        | some goal_spot =>
          if start_spot.sidewalk_pos.lane = goal_spot.sidewalk_pos.lane then
            match backup_plan with
            | some bp => Except.ok bp
            | none => Except.error SpawnError.backupPlanUnwrap
          else
            Except.ok (TripSpec.UsingBike bike start goal)
        | none =>
          match backup_plan with
          | some bp => Except.ok bp
          | none => Except.error SpawnError.backupPlanUnwrap
      | DrivingGoal.Border _ _ =>
        Except.ok (TripSpec.UsingBike bike start goal)
    | none =>
      match backup_plan with
      | some bp => Except.ok bp
      | none =>
        Except.ok (TripSpec.SpawningFailure (some bike)
          (bikeStuckMsg start goal))
  | TripSpec.UsingTransit start goal route stop1 maybe_stop2 =>
    Except.ok (TripSpec.UsingTransit start goal route stop1 maybe_stop2)

/-- The plan tuple `TripSpawnPlan` of `spawner.rs`:
`(PersonID, Time, TripSpec, TripEndpoint, TripPurpose, bool, bool)`. -/
structure TripSpawnPlan where
  person : Nat
  start_time : Nat
  spec : TripSpec
  trip_start : Nat
  purpose : Nat
  cancelled : Bool
  modified : Bool
deriving DecidableEq, Repr

/-- `TripSpawner::schedule_trip`: validate (possibly rewriting) the spec and
return the plan tuple; panics inside validation become `Except.error`. -/
def schedule_trip (map : MapView) (person : Nat) (start_time : Nat)
    (spec : TripSpec) (trip_start : Nat) (purpose : Nat)
    (cancelled : Bool) (modified : Bool) : Except SpawnError TripSpawnPlan :=
  (validate_spec map spec).map (fun s =>
    ⟨person, start_time, s, trip_start, purpose, cancelled, modified⟩)

/-- `sim::TripLeg` (the constructors `finalize` builds). -/
inductive TripLeg
  | Walk (spot : SidewalkSpot)
  | Drive (car : CarID) (goal : DrivingGoal)
  | RideBus (route : Nat) (maybe_stop2 : Option Nat)
deriving DecidableEq, Repr

/-- `sim::TripMode`. -/
inductive TripMode
  | Walk
  | Bike
  | Transit
  | Drive
deriving DecidableEq, Repr

/-- `sim::Command` (only the `StartTrip` variant is used by the spawner;
its payload is the trip id and the possibly-rewritten spec). -/
inductive Command
  | StartTrip (trip : Nat) (spec : TripSpec)
deriving DecidableEq, Repr

/-- `SidewalkSpot::deferred_parking_spot()`: a fixed placeholder spot whose
position is resolved later by the parking subsystem. -/
def SidewalkSpot.deferred_parking_spot : SidewalkSpot :=
  ⟨0, ⟨0, 0⟩⟩

/-- One trip record registered by `TripManager::new_trip`. -/
structure TripRecord where
  person : Nat
  start_time : Nat
  trip_start : Nat
  mode : TripMode
  purpose : Nat
  modified : Bool
  legs : List TripLeg
deriving DecidableEq, Repr

/-- The external `sim::TripManager` ledger, abstracted to the three calls
the spawner performs: `get_person`, `new_trip` (which assigns sequential
trip ids), and `cancel_unstarted_trip`. -/
structure TripManager where
  people : List Nat
  records : List TripRecord
  cancelled : List (Nat × String)
deriving DecidableEq, Repr

/-- `TripManager::get_person(p)`: `Some` exactly when the person is
registered in the ledger. -/
def TripManager.get_person (tm : TripManager) (p : Nat) : Option Nat :=
  if tm.people.contains p then some p else none

/-- `TripManager::new_trip(...)`: registers a trip record and returns the
fresh `TripID` (sequential: the number of records registered so far). -/
def TripManager.new_trip (tm : TripManager) (person : Nat) (start_time : Nat)
    (trip_start : Nat) (mode : TripMode) (purpose : Nat) (modified : Bool)
    (legs : List TripLeg) : TripManager × Nat :=
  ({ tm with
      records := tm.records ++
        [⟨person, start_time, trip_start, mode, purpose, modified, legs⟩] },
   tm.records.length)

/-- `TripManager::cancel_unstarted_trip(trip, reason)`. -/
def TripManager.cancel_unstarted_trip (tm : TripManager) (trip : Nat)
    (reason : String) : TripManager :=
  { tm with cancelled := tm.cancelled ++ [(trip, reason)] }

/-- The fixed reason `finalize` passes to `cancel_unstarted_trip`. -/
def cancelReason : String :=
  "traffic pattern modifier cancelled this trip"

/-- The mutable state `finalize` threads: the Trip Ledger plus the
Scheduler's event list (`Scheduler::push(time, cmd)` appends). -/
structure SimState where
  trips : TripManager
  scheduler : List (Nat × Command)
deriving DecidableEq, Repr

/-- The `let trip = match spec.clone() ...` step of `TripSpawner::finalize`
(`spawner.rs` lines 208-339): build the leg sequence for the plan's variant
and register it with `TripManager::new_trip`, returning the updated ledger
and the fresh trip id.  The `SpawningFailure` arm is the source's `todo!`,
and the `UsingBike` arm unwraps `SidewalkSpot::bike_rack`. -/
def register_trip (map : MapView) (st : SimState) (plan : TripSpawnPlan)
    (person : Nat) : Except SpawnError (TripManager × Nat) :=
  match plan.spec with
      | TripSpec.VehicleAppearing _ goal use_vehicle _ =>
        let legs := [TripLeg.Drive use_vehicle goal] ++
          (match goal with
           | DrivingGoal.ParkNear b => [TripLeg.Walk (map.building_spot b)]
           | DrivingGoal.Border _ _ => [])
        Except.ok (st.trips.new_trip person plan.start_time plan.trip_start
          (if use_vehicle.vehicle_type == VehicleType.Bike then
            TripMode.Bike
          else
            TripMode.Drive)
          plan.purpose plan.modified legs)
      | TripSpec.SpawningFailure _ _ =>
        Except.error SpawnError.spawningFailureTodo
      | TripSpec.UsingParkedCar car _ goal =>
        let legs := [TripLeg.Walk SidewalkSpot.deferred_parking_spot,
            TripLeg.Drive car goal] ++
          (match goal with
           | DrivingGoal.ParkNear b => [TripLeg.Walk (map.building_spot b)]
           | DrivingGoal.Border _ _ => [])
        Except.ok (st.trips.new_trip person plan.start_time plan.trip_start
          TripMode.Drive plan.purpose plan.modified legs)
      | TripSpec.JustWalking _ goal =>
        Except.ok (st.trips.new_trip person plan.start_time plan.trip_start
          TripMode.Walk plan.purpose plan.modified [TripLeg.Walk goal])
      | TripSpec.UsingBike bike start goal =>
        match map.bike_rack start with
        | none => Except.error SpawnError.bikeRackUnwrap
        | some walk_to =>
          let legs := [TripLeg.Walk walk_to, TripLeg.Drive bike goal] ++
            (match goal with
             | DrivingGoal.ParkNear b => [TripLeg.Walk (map.building_spot b)]
             | DrivingGoal.Border _ _ => [])
          Except.ok (st.trips.new_trip person plan.start_time plan.trip_start
            TripMode.Bike plan.purpose plan.modified legs)
      | TripSpec.UsingTransit _ goal route stop1 maybe_stop2 =>
        let walk_to := map.bus_stop stop1
        let legs :=
          match maybe_stop2 with
          | some stop2 => [TripLeg.Walk walk_to,
              TripLeg.RideBus route (some stop2), TripLeg.Walk goal]
          | none => [TripLeg.Walk walk_to, TripLeg.RideBus route none]
        Except.ok (st.trips.new_trip person plan.start_time plan.trip_start
          TripMode.Transit plan.purpose plan.modified legs)

/-- The body of the `for` loop in `TripSpawner::finalize` (`spawner.rs`
lines 199-349) for a single plan: look up the person (panic if absent),
build the leg sequence and register the trip (`register_trip`), then
either cancel it (when `cancelled`) or push a `StartTrip` command. -/
def finalizeOne (map : MapView) (st : SimState) (plan : TripSpawnPlan) :
    Except SpawnError SimState :=
  match st.trips.get_person plan.person with
  | none => Except.error (SpawnError.personNotFound plan.person)
  | some person =>
    match register_trip map st plan person with
    | Except.error e => Except.error e
    | Except.ok (tm2, trip) =>
      if plan.cancelled then
        Except.ok { st with
          trips := tm2.cancel_unstarted_trip trip cancelReason }
      else
        Except.ok { st with
          trips := tm2,
          scheduler := st.scheduler ++
            [(plan.start_time, Command.StartTrip trip plan.spec)] }

/-- `TripSpawner::finalize`: drain the buffered plans in order, applying
`finalizeOne` to each; a panic anywhere aborts the whole batch. -/
def finalize (map : MapView) (st : SimState)
    (plans : List TripSpawnPlan) : Except SpawnError SimState :=
  plans.foldlM (finalizeOne map) st

/-- `map_model::PathRequest`. -/
structure PathRequest where
  start : Position
  end_pos : Position
  constraints : PathConstraints
deriving DecidableEq, Repr

/-- `TripSpec::get_pathfinding_request` (`spawner.rs` lines 354-392);
the two `.unwrap()` calls (on `goal_pos` and on `bike_rack`) are modelled
as `Except.error`. -/
def get_pathfinding_request (map : MapView) :
    TripSpec → Except SpawnError (Option PathRequest)
  | TripSpec.VehicleAppearing start_pos goal use_vehicle _ =>
    let constraints :=
      if use_vehicle.vehicle_type == VehicleType.Bike then
        PathConstraints.Bike
      else
        PathConstraints.Car
    match map.goal_pos goal constraints with
    | none => Except.error SpawnError.goalPosUnwrap
    | some e => Except.ok (some ⟨start_pos, e, constraints⟩)
  | TripSpec.SpawningFailure _ _ => Except.ok none
  | TripSpec.UsingParkedCar _ _ _ => Except.ok none
  | TripSpec.JustWalking start goal =>
    Except.ok (some ⟨start.sidewalk_pos, goal.sidewalk_pos,
      PathConstraints.Pedestrian⟩)
  | TripSpec.UsingBike _ start _ =>
    match map.bike_rack start with
    | none => Except.error SpawnError.bikeRackUnwrap
    | some spot =>
      Except.ok (some ⟨map.get_b_sidewalk_pos start, spot.sidewalk_pos,
        PathConstraints.Pedestrian⟩)
  | TripSpec.UsingTransit start _ _ stop1 _ =>
    Except.ok (some ⟨start.sidewalk_pos, (map.bus_stop stop1).sidewalk_pos,
      PathConstraints.Pedestrian⟩)

/-! ### Concrete fixtures used by witnesses and counterexamples -/

/-- A small concrete map: every lane is 100 long, buildings `b` have their
entrance spot on lane `20 + b`, only even-numbered buildings have a bike
rack (all racks on lane 30), and no border intersection has a pedestrian
crossing. -/
def wMap : MapView where
  laneLength := fun _ => 100
  goal_pos := fun _ _ => some ⟨3, 4⟩
  building_spot := fun b => ⟨b, ⟨20 + b, 0⟩⟩
  bike_rack := fun b =>
    if b % 2 == 0 then some ⟨100 + b, ⟨30, b⟩⟩ else none
  end_at_border := fun _ => none
  bus_stop := fun s => ⟨200 + s, ⟨40 + s, 0⟩⟩
  get_b_sidewalk_pos := fun b => ⟨20 + b, 0⟩

/-- A map on which every building shares one bike rack spot. -/
def c7Map : MapView where
  laneLength := fun _ => 100
  goal_pos := fun _ _ => none
  building_spot := fun b => ⟨b, ⟨b, 0⟩⟩
  bike_rack := fun _ => some ⟨50, ⟨7, 3⟩⟩
  end_at_border := fun _ => none
  bus_stop := fun s => ⟨s, ⟨s, 0⟩⟩
  get_b_sidewalk_pos := fun b => ⟨b, 0⟩

/-- A map with no bike racks anywhere. -/
def c8Map : MapView where
  laneLength := fun _ => 100
  goal_pos := fun _ _ => none
  building_spot := fun b => ⟨b, ⟨b, 0⟩⟩
  bike_rack := fun _ => none
  end_at_border := fun _ => none
  bus_stop := fun s => ⟨s, ⟨s, 0⟩⟩
  get_b_sidewalk_pos := fun b => ⟨b, 0⟩

/-! ### Claim theorems -/

/-- C5: for every `VehicleAppearing` specification whose start offset along
its lane is not strictly less than that lane's length (the boundary case
`offset = length` included), validation aborts the run with a diagnostic
naming the position. -/
theorem vehicleAppearing_offset_at_lane_end_aborts
    (map : MapView) (start_pos : Position) (goal : DrivingGoal)
    (use_vehicle : CarID) (retry : Bool)
    (h : map.laneLength start_pos.lane ≤ start_pos.dist_along) :
    validate_spec map
      (TripSpec.VehicleAppearing start_pos goal use_vehicle retry) =
      Except.error (SpawnError.spawnTooFar start_pos) := by
  simp [validate_spec, h]

/-- Witness for C5 at the exact boundary `offset = length`. -/
theorem vehicleAppearing_offset_at_lane_end_aborts_witness :
    validate_spec wMap
      (TripSpec.VehicleAppearing ⟨5, 100⟩ (DrivingGoal.ParkNear 0)
        ⟨0, VehicleType.Car⟩ false) =
      Except.error (SpawnError.spawnTooFar ⟨5, 100⟩) :=
  vehicleAppearing_offset_at_lane_end_aborts wMap ⟨5, 100⟩
    (DrivingGoal.ParkNear 0) ⟨0, VehicleType.Car⟩ false (by decide)

/-- C6: a `JustWalking` specification with identical start and goal makes
validation abort; with distinct start and goal it is returned unchanged. -/
theorem justWalking_validation
    (map : MapView) (start goal : SidewalkSpot) :
    (start = goal →
      validate_spec map (TripSpec.JustWalking start goal) =
        Except.error (SpawnError.degenerateWalk start goal)) ∧
    (start ≠ goal →
      validate_spec map (TripSpec.JustWalking start goal) =
        Except.ok (TripSpec.JustWalking start goal)) := by
  constructor
  · intro h
    simp [validate_spec, h]
  · intro h
    simp [validate_spec, h]

/-- Witness for C6: both branches at concrete spots. -/
theorem justWalking_validation_witness :
    validate_spec wMap
      (TripSpec.JustWalking ⟨1, ⟨10, 0⟩⟩ ⟨1, ⟨10, 0⟩⟩) =
      Except.error (SpawnError.degenerateWalk ⟨1, ⟨10, 0⟩⟩ ⟨1, ⟨10, 0⟩⟩) ∧
    validate_spec wMap
      (TripSpec.JustWalking ⟨1, ⟨10, 0⟩⟩ ⟨2, ⟨11, 5⟩⟩) =
      Except.ok (TripSpec.JustWalking ⟨1, ⟨10, 0⟩⟩ ⟨2, ⟨11, 5⟩⟩) :=
  ⟨(justWalking_validation wMap ⟨1, ⟨10, 0⟩⟩ ⟨1, ⟨10, 0⟩⟩).1 rfl,
   (justWalking_validation wMap ⟨1, ⟨10, 0⟩⟩ ⟨2, ⟨11, 5⟩⟩).2 (by decide)⟩

/-- C3: a `UsingBike` specification parking near building `b`, where both
the start building and `b` have bike-rack spots and the two rack positions
lie on the same sidewalk lane, is rewritten to the building-to-building
`JustWalking` backup. -/
theorem usingBike_same_sidewalk_rewrites_to_walking
    (map : MapView) (bike : CarID) (start b : Nat)
    (start_spot goal_spot : SidewalkSpot)
    (h1 : map.bike_rack start = some start_spot)
    (h2 : map.bike_rack b = some goal_spot)
    (h3 : start_spot.sidewalk_pos.lane = goal_spot.sidewalk_pos.lane) :
    validate_spec map
      (TripSpec.UsingBike bike start (DrivingGoal.ParkNear b)) =
      Except.ok (TripSpec.JustWalking (map.building_spot start)
        (map.building_spot b)) := by
  simp [validate_spec, h1, h2, h3]

/-- Witness for C3: buildings 0 and 2 of `wMap` both have racks on lane 30. -/
theorem usingBike_same_sidewalk_rewrites_to_walking_witness :
    validate_spec wMap
      (TripSpec.UsingBike ⟨9, VehicleType.Bike⟩ 0 (DrivingGoal.ParkNear 2)) =
      Except.ok (TripSpec.JustWalking (wMap.building_spot 0)
        (wMap.building_spot 2)) :=
  usingBike_same_sidewalk_rewrites_to_walking wMap ⟨9, VehicleType.Bike⟩ 0 2
    ⟨100, ⟨30, 0⟩⟩ ⟨102, ⟨30, 2⟩⟩ rfl rfl rfl

/-- C4: a `UsingBike` specification whose start building has no bike rack
and whose goal is a border exit with no pedestrian crossing is rewritten to
`SpawningFailure`; its diagnostic interpolates both the start building and
the goal. -/
theorem usingBike_no_rack_no_backup_becomes_failure
    (map : MapView) (bike : CarID) (start i l : Nat)
    (h1 : map.bike_rack start = none)
    (h2 : map.end_at_border i = none) :
    validate_spec map
      (TripSpec.UsingBike bike start (DrivingGoal.Border i l)) =
      Except.ok (TripSpec.SpawningFailure (some bike)
        (bikeStuckMsg start (DrivingGoal.Border i l))) ∧
    bikeStuckMsg start (DrivingGoal.Border i l) =
      "Can\x27t start biking from " ++ toString start ++
        " and can\x27t walk either! Goal is " ++
        reprStr (DrivingGoal.Border i l) := by
  refine ⟨?_, rfl⟩
  simp [validate_spec, h1, h2]

/-- Witness for C4: building 1 of `wMap` has no rack and no border of
`wMap` has a pedestrian crossing. -/
theorem usingBike_no_rack_no_backup_becomes_failure_witness :
    validate_spec wMap
      (TripSpec.UsingBike ⟨9, VehicleType.Bike⟩ 1 (DrivingGoal.Border 4 6)) =
      Except.ok (TripSpec.SpawningFailure (some ⟨9, VehicleType.Bike⟩)
        (bikeStuckMsg 1 (DrivingGoal.Border 4 6))) :=
  (usingBike_no_rack_no_backup_becomes_failure wMap ⟨9, VehicleType.Bike⟩
    1 4 6 rfl rfl).1

/-- C10: a `UsingBike` specification whose goal is a border exit passes
through validation unchanged whenever its start building has a bike rack. -/
theorem usingBike_border_goal_with_rack_unchanged
    (map : MapView) (bike : CarID) (start i l : Nat) (spot : SidewalkSpot)
    (h : map.bike_rack start = some spot) :
    validate_spec map
      (TripSpec.UsingBike bike start (DrivingGoal.Border i l)) =
      Except.ok (TripSpec.UsingBike bike start (DrivingGoal.Border i l)) := by
  simp [validate_spec, h]

/-- Witness for C10: building 0 of `wMap` has a rack. -/
theorem usingBike_border_goal_with_rack_unchanged_witness :
    validate_spec wMap
      (TripSpec.UsingBike ⟨9, VehicleType.Bike⟩ 0 (DrivingGoal.Border 4 6)) =
      Except.ok (TripSpec.UsingBike ⟨9, VehicleType.Bike⟩ 0
        (DrivingGoal.Border 4 6)) :=
  usingBike_border_goal_with_rack_unchanged wMap ⟨9, VehicleType.Bike⟩ 0 4 6
    ⟨100, ⟨30, 0⟩⟩ rfl

/-- C7 counterexample: the Validator is not idempotent on every fallback
output.  On `c7Map`, a bike trip from building 4 parking near building 4
itself has racks on both ends, trivially on the same sidewalk lane, so
validation rewrites it to the `JustWalking` backup between building 4's
spot and itself — and re-validating that output aborts (identical
endpoints) instead of passing it through. -/
theorem validator_fallback_not_idempotent :
    validate_spec c7Map
      (TripSpec.UsingBike ⟨0, VehicleType.Bike⟩ 4 (DrivingGoal.ParkNear 4)) =
      Except.ok (TripSpec.JustWalking (c7Map.building_spot 4)
        (c7Map.building_spot 4)) ∧
    validate_spec c7Map
      (TripSpec.JustWalking (c7Map.building_spot 4)
        (c7Map.building_spot 4)) =
      Except.error (SpawnError.degenerateWalk (c7Map.building_spot 4)
        (c7Map.building_spot 4)) := by
  constructor <;> rfl

/-- C7 (amended): re-running the Validator on a `JustWalking` fallback that
a `UsingBike` input was rewritten to is a no-op provided the fallback's two
endpoints are distinct; a fallback with identical endpoints aborts
re-validation instead. -/
theorem validator_fallback_idempotent_on_distinct_endpoints
    (map : MapView) (bike : CarID) (start : Nat) (goal : DrivingGoal)
    (s g : SidewalkSpot)
    (_h : validate_spec map (TripSpec.UsingBike bike start goal) =
      Except.ok (TripSpec.JustWalking s g))
    (hne : s ≠ g) :
    validate_spec map (TripSpec.JustWalking s g) =
      Except.ok (TripSpec.JustWalking s g) := by
  simp [validate_spec, hne]

/-- Witness for amended C7: building 1 of `wMap` has no rack, so the bike
trip to building 2 falls back to walking between two distinct spots, and
re-validation passes that fallback through. -/
theorem validator_fallback_idempotent_witness :
    validate_spec wMap
      (TripSpec.JustWalking (wMap.building_spot 1) (wMap.building_spot 2)) =
      Except.ok (TripSpec.JustWalking (wMap.building_spot 1)
        (wMap.building_spot 2)) :=
  validator_fallback_idempotent_on_distinct_endpoints wMap
    ⟨9, VehicleType.Bike⟩ 1 (DrivingGoal.ParkNear 2)
    (wMap.building_spot 1) (wMap.building_spot 2) rfl (by decide)

/-- C8 counterexample: the pathfinding request deriver does not return a
request for every `UsingBike` specification — when the start building has
no bike rack, the source's `.unwrap()` panics instead. -/
theorem usingBike_path_request_panics_without_rack :
    get_pathfinding_request c8Map
      (TripSpec.UsingBike ⟨3, VehicleType.Bike⟩ 0 (DrivingGoal.ParkNear 1)) =
      Except.error SpawnError.bikeRackUnwrap := rfl

/-- C8 (amended): for every `UsingBike` specification whose start building
has a bike-rack spot, the deriver returns a pedestrian-constrained request
from the start building's sidewalk position to that building's bike-rack
sidewalk position; when no rack exists it panics on the unwrap. -/
theorem usingBike_path_request_with_rack
    (map : MapView) (bike : CarID) (start : Nat) (goal : DrivingGoal)
    (spot : SidewalkSpot)
    (h : map.bike_rack start = some spot) :
    get_pathfinding_request map (TripSpec.UsingBike bike start goal) =
      Except.ok (some ⟨map.get_b_sidewalk_pos start, spot.sidewalk_pos,
        PathConstraints.Pedestrian⟩) := by
  simp [get_pathfinding_request, h]

/-- Witness for amended C8 at building 0 of `wMap`. -/
theorem usingBike_path_request_with_rack_witness :
    get_pathfinding_request wMap
      (TripSpec.UsingBike ⟨3, VehicleType.Bike⟩ 0 (DrivingGoal.Border 1 2)) =
      Except.ok (some ⟨wMap.get_b_sidewalk_pos 0,
        (⟨100, ⟨30, 0⟩⟩ : SidewalkSpot).sidewalk_pos,
        PathConstraints.Pedestrian⟩) :=
  usingBike_path_request_with_rack wMap ⟨3, VehicleType.Bike⟩ 0
    (DrivingGoal.Border 1 2) ⟨100, ⟨30, 0⟩⟩ rfl

/-- Whenever the border-edge panic condition holds, so does the condition
of the out-of-bounds check that precedes it. -/
theorem borderEdgeCond_implies_out_of_bounds
    (map : MapView) (start_pos : Position) (goal : DrivingGoal)
    (h : borderEdgeCond map start_pos goal = true) :
    map.laneLength start_pos.lane ≤ start_pos.dist_along := by
  cases goal with
  | ParkNear b => simp [borderEdgeCond] at h
  | Border i l =>
    simp [borderEdgeCond] at h
    obtain ⟨h1, h2⟩ := h
    rw [h1, h2]

/-- Validation never produces the border-edge panic, on any input. -/
theorem validate_spec_ne_borderEdge (m : MapView) (s : TripSpec)
    (q : Position) :
    validate_spec m s ≠ Except.error (SpawnError.borderEdge q) := by
  cases s with
  | VehicleAppearing p g v r =>
    simp only [validate_spec]
    split
    · simp
    · next hge =>
      split
      · next hbc =>
        exact absurd (borderEdgeCond_implies_out_of_bounds m p g hbc) hge
      · split <;> split <;> simp
  | SpawningFailure v e => simp [validate_spec]
  | UsingParkedCar c sb g => simp [validate_spec]
  | JustWalking s g =>
    simp only [validate_spec]
    split <;> simp
  | UsingBike b s g =>
    simp only [validate_spec]
    cases hr : m.bike_rack s with
    | none =>
      cases g with
      | ParkNear b2 => simp [hr]
      | Border i l =>
        cases hb : m.end_at_border i <;> simp [hr, hb]
    | some start_spot =>
      cases g with
      | ParkNear b2 =>
        cases h2 : m.bike_rack b2 with
        | none => simp [hr, h2]
        | some goal_spot =>
          simp only [hr, h2]
          split <;> simp
      | Border i l => simp [hr]
  | UsingTransit s g r s1 m2 => simp [validate_spec]

/-- C9: the dedicated border-edge abort branch in `VehicleAppearing`
validation is dead code: whenever its condition holds (start lane equals
the border exit lane and the offset equals that lane's length), the
preceding out-of-bounds check has already panicked, and on no input at all
does validation emit the border-edge diagnostic. -/
theorem borderEdge_branch_unreachable
    (map : MapView) (start_pos : Position) (i end_lane : Nat)
    (use_vehicle : CarID) (retry : Bool)
    (h1 : start_pos.lane = end_lane)
    (h2 : start_pos.dist_along = map.laneLength end_lane) :
    validate_spec map (TripSpec.VehicleAppearing start_pos
        (DrivingGoal.Border i end_lane) use_vehicle retry) =
      Except.error (SpawnError.spawnTooFar start_pos) ∧
    ∀ (m : MapView) (s : TripSpec) (q : Position),
      validate_spec m s ≠ Except.error (SpawnError.borderEdge q) := by
  refine ⟨?_, validate_spec_ne_borderEdge⟩
  have hle : map.laneLength start_pos.lane ≤ start_pos.dist_along := by
    rw [h1, h2]
  simp [validate_spec, hle]

/-- Witness for C9 at lane 5 of `wMap` (length 100). -/
theorem borderEdge_branch_unreachable_witness :
    validate_spec wMap (TripSpec.VehicleAppearing ⟨5, 100⟩
        (DrivingGoal.Border 9 5) ⟨0, VehicleType.Car⟩ true) =
      Except.error (SpawnError.spawnTooFar ⟨5, 100⟩) :=
  (borderEdge_branch_unreachable wMap ⟨5, 100⟩ 9 5 ⟨0, VehicleType.Car⟩ true
    rfl rfl).1

/-- Shape of every successful trip registration: the fresh trip id is the
number of records already in the ledger, exactly one record is appended,
and the cancellation list and person registry are untouched. -/
theorem register_trip_ok_shape (map : MapView) (st : SimState)
    (plan : TripSpawnPlan) (person : Nat) (tm2 : TripManager) (trip : Nat)
    (h : register_trip map st plan person = Except.ok (tm2, trip)) :
    trip = st.trips.records.length ∧
    tm2.records.length = st.trips.records.length + 1 ∧
    tm2.cancelled = st.trips.cancelled ∧
    tm2.people = st.trips.people := by
  unfold register_trip at h
  cases hs : plan.spec with
  | VehicleAppearing p g v r =>
    simp only [hs, TripManager.new_trip, Except.ok.injEq, Prod.mk.injEq] at h
    obtain ⟨h1, h2⟩ := h
    subst h1
    subst h2
    exact ⟨rfl, by simp, rfl, rfl⟩
  | SpawningFailure v e =>
    simp [hs] at h
  | UsingParkedCar c sb g =>
    simp only [hs, TripManager.new_trip, Except.ok.injEq, Prod.mk.injEq] at h
    obtain ⟨h1, h2⟩ := h
    subst h1
    subst h2
    exact ⟨rfl, by simp, rfl, rfl⟩
  | JustWalking s g =>
    simp only [hs, TripManager.new_trip, Except.ok.injEq, Prod.mk.injEq] at h
    obtain ⟨h1, h2⟩ := h
    subst h1
    subst h2
    exact ⟨rfl, by simp, rfl, rfl⟩
  | UsingBike b s g =>
    cases hr : map.bike_rack s with
    | none =>
      simp [hs, hr] at h
    | some walk_to =>
      simp only [hs, hr, TripManager.new_trip, Except.ok.injEq,
        Prod.mk.injEq] at h
      obtain ⟨h1, h2⟩ := h
      subst h1
      subst h2
      exact ⟨rfl, by simp, rfl, rfl⟩
  | UsingTransit s g r s1 m2 =>
    simp only [hs, TripManager.new_trip, Except.ok.injEq, Prod.mk.injEq] at h
    obtain ⟨h1, h2⟩ := h
    subst h1
    subst h2
    exact ⟨rfl, by simp, rfl, rfl⟩

/-- C1: finalizing a plan whose `cancelled` flag is true still registers a
trip with the ledger (one new record, whose id is the next sequential trip
id), immediately marks that id cancelled-before-start with the fixed
reason, and pushes nothing into the Scheduler. -/
theorem finalize_cancelled_registers_without_scheduling
    (map : MapView) (st : SimState) (plan : TripSpawnPlan) (st2 : SimState)
    (hc : plan.cancelled = true)
    (h : finalizeOne map st plan = Except.ok st2) :
    st2.scheduler = st.scheduler ∧
    st2.trips.records.length = st.trips.records.length + 1 ∧
    st2.trips.cancelled = st.trips.cancelled ++
      [(st.trips.records.length, cancelReason)] := by
  unfold finalizeOne at h
  cases hp : st.trips.get_person plan.person with
  | none =>
    simp [hp] at h
  | some person =>
    simp only [hp] at h
    cases hr : register_trip map st plan person with
    | error e =>
      simp [hr] at h
    | ok pr =>
      obtain ⟨tm2, trip⟩ := pr
      simp only [hr, hc, if_true] at h
      obtain ⟨ht, hlen, hcanc, -⟩ :=
        register_trip_ok_shape map st plan person tm2 trip hr
      simp only [Except.ok.injEq] at h
      subst h
      refine ⟨rfl, ?_, ?_⟩
      · simpa [TripManager.cancel_unstarted_trip] using hlen
      · simp [TripManager.cancel_unstarted_trip, hcanc, ht]

/-- A ledger holding only person 7, with no trips yet. -/
def w1St : SimState := ⟨⟨[7], [], []⟩, []⟩

/-- A cancelled walking plan for person 7. -/
def w1Plan : TripSpawnPlan :=
  ⟨7, 30, TripSpec.JustWalking ⟨1, ⟨10, 0⟩⟩ ⟨2, ⟨11, 5⟩⟩, 0, 0, true, false⟩

/-- The state `finalizeOne` produces from `w1St` and `w1Plan`. -/
def w1St2 : SimState :=
  ⟨⟨[7], [⟨7, 30, 0, TripMode.Walk, 0, false, [TripLeg.Walk ⟨2, ⟨11, 5⟩⟩]⟩],
    [(0, cancelReason)]⟩, []⟩

/-- Witness for C1: finalizing the cancelled plan `w1Plan` registers trip 0
and cancels it without scheduling anything. -/
theorem finalize_cancelled_registers_without_scheduling_witness :
    w1St2.scheduler = w1St.scheduler ∧
    w1St2.trips.records.length = w1St.trips.records.length + 1 ∧
    w1St2.trips.cancelled = w1St.trips.cancelled ++
      [(w1St.trips.records.length, cancelReason)] :=
  finalize_cancelled_registers_without_scheduling wMap w1St w1Plan w1St2
    rfl rfl

/-- Finalizing a plan whose spec is `SpawningFailure` always panics: either
the person lookup fails first, or the `todo!` is reached. -/
theorem finalizeOne_spawning_failure_error (map : MapView) (st : SimState)
    (plan : TripSpawnPlan) (use_vehicle : Option CarID) (error : String)
    (hs : plan.spec = TripSpec.SpawningFailure use_vehicle error) :
    ∃ e, finalizeOne map st plan = Except.error e := by
  unfold finalizeOne
  cases hp : st.trips.get_person plan.person with
  | none =>
    exact ⟨SpawnError.personNotFound plan.person, by simp [hp]⟩
  | some person =>
    refine ⟨SpawnError.spawningFailureTodo, ?_⟩
    have hr : register_trip map st plan person =
        Except.error SpawnError.spawningFailureTodo := by
      unfold register_trip
      simp [hs]
    simp [hp, hr]

/-- A batch containing a `SpawningFailure` plan can never finalize
successfully, whatever state the loop has reached before it. -/
theorem finalize_mem_spawning_failure_not_ok (map : MapView)
    (plans : List TripSpawnPlan) (plan : TripSpawnPlan)
    (use_vehicle : Option CarID) (error : String)
    (hs : plan.spec = TripSpec.SpawningFailure use_vehicle error) :
    ∀ st st2, plan ∈ plans → finalize map st plans ≠ Except.ok st2 := by
  induction plans with
  | nil =>
    intro st st2 hmem
    cases hmem
  | cons p rest ih =>
    intro st st2 hmem hcontra
    unfold finalize at hcontra
    rw [List.foldlM_cons] at hcontra
    cases hm : finalizeOne map st p with
    | error e =>
      rw [hm] at hcontra
      simp only [bind, Except.bind] at hcontra
      cases hcontra
    | ok st3 =>
      rw [hm] at hcontra
      simp only [bind, Except.bind] at hcontra
      rcases List.mem_cons.mp hmem with heq | hmem2
      · subst heq
        obtain ⟨e, he⟩ :=
          finalizeOne_spawning_failure_error map st plan use_vehicle error hs
        rw [he] at hm
        cases hm
      · exact ih st3 st2 hmem2 hcontra

/-- C2: a plan whose specification is `SpawningFailure` makes finalization
abort: no batch containing it finalizes to any state, and when the plan is
reached with its person registered, the abort is precisely the
unimplemented `todo!` of the failure-finalization path — no trip is
registered for it. -/
theorem finalize_spawning_failure_aborts (map : MapView) (st : SimState)
    (plans : List TripSpawnPlan) (plan : TripSpawnPlan)
    (use_vehicle : Option CarID) (error : String)
    (hmem : plan ∈ plans)
    (hs : plan.spec = TripSpec.SpawningFailure use_vehicle error) :
    (∀ st2, finalize map st plans ≠ Except.ok st2) ∧
    (st.trips.people.contains plan.person = true →
      finalizeOne map st plan = Except.error SpawnError.spawningFailureTodo) := by
  constructor
  · intro st2
    exact finalize_mem_spawning_failure_not_ok map plans plan use_vehicle
      error hs st st2 hmem
  · intro hperson
    have hp : st.trips.get_person plan.person = some plan.person := by
      unfold TripManager.get_person
      rw [hperson]
      simp
    have hr : register_trip map st plan plan.person =
        Except.error SpawnError.spawningFailureTodo := by
      unfold register_trip
      simp [hs]
    unfold finalizeOne
    simp [hp, hr]

/-- A `SpawningFailure` plan for person 7. -/
def w2Plan : TripSpawnPlan :=
  ⟨7, 30, TripSpec.SpawningFailure none "boom", 0, 0, false, false⟩

/-- Witness for C2: finalizing `w2Plan` with person 7 registered hits the
`todo!`. -/
theorem finalize_spawning_failure_aborts_witness :
    finalizeOne wMap w1St w2Plan =
      Except.error SpawnError.spawningFailureTodo :=
  (finalize_spawning_failure_aborts wMap w1St [w2Plan] w2Plan none "boom"
    (List.mem_singleton.mpr rfl) rfl).2 (by decide)

end Spawner
